import Mathlib

/-!
Shallow embedding of `mdlayher/modemmanager_exporter` (src/handler.go):
the scrape orchestration and metric-encoding engine.

Modelling choices:
* `float64` sample values are modelled as `ℚ`.  The code only ever passes
  literals `0.0` / `1.0`, raw fetched readings, and `float64(now.Unix())`
  through unchanged, so no floating-point arithmetic is lost.
* Go's `modemmanager.PowerState` / `modemmanager.State` are named `int`
  types in the external library; they are modelled as `Int` with the
  library's distinct constant values (only equality of the constants is
  used by the code under verification).
* The Go `metrics` map (metric name → emit callback) is modelled by its
  key list `names : List String`; Go map iteration order is an arbitrary
  permutation of the keys, so `names` is a parameter and order-related
  facts quantify over permutations.
* An emit callback invocation is recorded as a `Sample`; a scrape's
  observable output is the list of recorded samples (the sink discards
  all samples when the scrape function returns an error).
* `panicf` (process abort) is modelled as the `ScrapeOutcome.panicked`
  constructor, distinct from the recoverable scrape error.
-/

namespace MMX

/-- Prometheus metric name constant from handler.go. -/
def mmInfo : String := "modemmanager_info"

/-- Prometheus metric name constant from handler.go. -/
def mmModemInfo : String := "modemmanager_modem_info"

/-- Prometheus metric name constant from handler.go. -/
def mmModemNetworkPortInfo : String := "modemmanager_modem_network_port_info"

/-- Prometheus metric name constant from handler.go. -/
def mmModemNetworkTimestamp : String := "modemmanager_network_timestamp_seconds"

/-- Prometheus metric name constant from handler.go. -/
def mmModemPowerState : String := "modemmanager_modem_power_state"

/-- Prometheus metric name constant from handler.go. -/
def mmModemState : String := "modemmanager_modem_state"

/-- Prometheus metric name constant from handler.go. -/
def mmModemSignalLTERSRQ : String := "modemmanager_modem_signal_lte_rsrq_db"

/-- Prometheus metric name constant from handler.go. -/
def mmModemSignalLTERSRP : String := "modemmanager_modem_signal_lte_rsrp_dbm"

/-- Prometheus metric name constant from handler.go. -/
def mmModemSignalLTERSSI : String := "modemmanager_modem_signal_lte_rssi_dbm"

/-- Prometheus metric name constant from handler.go. -/
def mmModemSignalLTESNR : String := "modemmanager_modem_signal_lte_snr_db"

/-- The ten metric names declared by `NewHandler` via `mm.ConstGauge`,
in declaration order (handler.go, `NewHandler`). -/
def declaredMetricNames : List String :=
  [mmInfo, mmModemInfo, mmModemNetworkPortInfo, mmModemNetworkTimestamp,
   mmModemPowerState, mmModemState, mmModemSignalLTERSRQ, mmModemSignalLTERSRP,
   mmModemSignalLTERSSI, mmModemSignalLTESNR]

/-- `modemmanager.PortType` from the external library: a closed set of
port kinds; the code under verification only compares against
`PortTypeNet`, so the constructors just need to be distinct. -/
inductive PortType where
  | unknown
  | net
  | atCmd
  | qcdm
  | gps
  | qmi
  | mbim
  | audio
deriving DecidableEq

/-- `modemmanager.Port`: a named port with a type (`Name`, `Type` in Go;
the Go field `Type` is rendered `Typ` since `Type` is a Lean keyword). -/
structure Port where
  Name : String
  Typ : PortType
deriving DecidableEq

/-- LTE part of `modemmanager.Signal`: the four signal scalars. -/
structure LTESignal where
  RSRP : ℚ
  RSRQ : ℚ
  RSSI : ℚ
  SNR : ℚ
deriving DecidableEq

/-- `modemmanager.Signal`: only the LTE scalar block is read by the code. -/
structure Signal where
  LTE : LTESignal
deriving DecidableEq

/-- `modemmanager.PowerState` constant (underlying Go `int`). -/
def PowerStateUnknown : Int := 0

/-- `modemmanager.PowerState` constant (underlying Go `int`). -/
def PowerStateOff : Int := 1

/-- `modemmanager.PowerState` constant (underlying Go `int`). -/
def PowerStateLow : Int := 2

/-- `modemmanager.PowerState` constant (underlying Go `int`). -/
def PowerStateOn : Int := 3

/-- `modemmanager.State` constant (underlying Go `int`). -/
def StateFailed : Int := -1

/-- `modemmanager.State` constant (underlying Go `int`). -/
def StateUnknown : Int := 0

/-- `modemmanager.State` constant (underlying Go `int`). -/
def StateLocked : Int := 2

/-- `modemmanager.State` constant (underlying Go `int`). -/
def StateDisabled : Int := 3

/-- `modemmanager.State` constant (underlying Go `int`). -/
def StateDisabling : Int := 4

/-- `modemmanager.State` constant (underlying Go `int`). -/
def StateEnabling : Int := 5

/-- `modemmanager.State` constant (underlying Go `int`). -/
def StateEnabled : Int := 6

/-- `modemmanager.State` constant (underlying Go `int`). -/
def StateSearching : Int := 7

/-- `modemmanager.State` constant (underlying Go `int`). -/
def StateRegistered : Int := 8

/-- `modemmanager.State` constant (underlying Go `int`). -/
def StateDisconnecting : Int := 9

/-- `modemmanager.State` constant (underlying Go `int`). -/
def StateConnecting : Int := 10

/-- `modemmanager.State` constant (underlying Go `int`). -/
def StateConnected : Int := 11

/-- The fields of `modemmanager.Modem` read by the code under
verification (device snapshot). -/
structure Modem where
  DeviceIdentifier : String
  Revision : String
  EquipmentIdentifier : String
  Model : String
  PowerState : Int
  State : Int
  Ports : List Port
deriving DecidableEq

/-- One recorded emit-callback invocation: metric name, value, and the
ordered label values passed to the callback. -/
structure Sample where
  metric : String
  value : ℚ
  labels : List String
deriving DecidableEq

/-- `portInfo` (handler.go): iterate the modem's ports, skip every port
whose type is not `PortTypeNet`, and emit `(1.0, deviceId, portName)`
for each network port, in port order. -/
def portInfo (m : Modem) : List Sample :=
  m.Ports.filterMap fun p =>
    if p.Typ ≠ PortType.net then none
    else some ⟨mmModemNetworkPortInfo, 1, [m.DeviceIdentifier, p.Name]⟩

/-- The ordered power-state domain table from `powerState`
(handler.go): label string paired with the `PowerState` value. -/
def powerStatesTable : List (String × Int) :=
  [("unknown", PowerStateUnknown),
   ("off", PowerStateOff),
   ("low", PowerStateLow),
   ("on", PowerStateOn)]

/-- `powerState` (handler.go): emit every member of the power-state
domain in table order, value `1.0` for the member equal to the modem's
active power state and `0.0` otherwise. -/
def powerState (m : Modem) : List Sample :=
  powerStatesTable.map fun s =>
    ⟨mmModemPowerState, if s.2 = m.PowerState then 1 else 0,
     [m.DeviceIdentifier, s.1]⟩

/-- The ordered connection-state domain table from `state`
(handler.go): label string paired with the `State` value. -/
def statesTable : List (String × Int) :=
  [("failed", StateFailed),
   ("unknown", StateUnknown),
   ("locked", StateLocked),
   ("disabled", StateDisabled),
   ("disabling", StateDisabling),
   ("enabling", StateEnabling),
   ("enabled", StateEnabled),
   ("searching", StateSearching),
   ("registered", StateRegistered),
   ("disconnecting", StateDisconnecting),
   ("connecting", StateConnecting),
   ("connected", StateConnected)]

/-- `state` (handler.go): emit every member of the connection-state
domain in table order, value `1.0` for the member equal to the modem's
active state and `0.0` otherwise. -/
def state (m : Modem) : List Sample :=
  statesTable.map fun s =>
    ⟨mmModemState, if s.2 = m.State then 1 else 0,
     [m.DeviceIdentifier, s.1]⟩

/-- The `switch name` dispatch inside `onScrape`'s per-modem closure
(handler.go): given the modem, the fetched network time (`now`, as unix
seconds) and signal reading, and one metric name from the sink's map,
return the samples emitted for that name, or `none` for the `default`
branch (`panicf`: unhandled metric). -/
def dispatchMetric (m : Modem) (now : Int) (s : Signal) (name : String) :
    Option (List Sample) :=
  if name = mmInfo then some []
  else if name = mmModemInfo then
    some [⟨mmModemInfo, 1,
      [m.DeviceIdentifier, m.Revision, m.EquipmentIdentifier, m.Model]⟩]
  else if name = mmModemNetworkPortInfo then some (portInfo m)
  else if name = mmModemNetworkTimestamp then
    some [⟨mmModemNetworkTimestamp, (now : ℚ), [m.DeviceIdentifier]⟩]
  else if name = mmModemPowerState then some (powerState m)
  else if name = mmModemState then some (state m)
  else if name = mmModemSignalLTERSRP then
    some [⟨mmModemSignalLTERSRP, s.LTE.RSRP, [m.DeviceIdentifier]⟩]
  else if name = mmModemSignalLTERSRQ then
    some [⟨mmModemSignalLTERSRQ, s.LTE.RSRQ, [m.DeviceIdentifier]⟩]
  else if name = mmModemSignalLTERSSI then
    some [⟨mmModemSignalLTERSSI, s.LTE.RSSI, [m.DeviceIdentifier]⟩]
  else if name = mmModemSignalLTESNR then
    some [⟨mmModemSignalLTESNR, s.LTE.SNR, [m.DeviceIdentifier]⟩]
  else none

/-- The `for name, c := range metrics` loop body for one modem: dispatch
every key of the sink's map (in the iteration order `names`).  `none`
models the process abort from `panicf` carrying the first unhandled
name. -/
def emitModem (names : List String) (m : Modem) (now : Int) (s : Signal) :
    Option (List Sample) :=
  match names with
  | [] => some []
  | n :: rest =>
    match dispatchMetric m now s n with
    | none => none
    | some out =>
      match emitModem rest m now s with
      | none => none
      | some acc => some (out ++ acc)

/-- The ModemManager client as seen by `onScrape`: the daemon version,
the modems yielded by `ForEachModem` (in iteration order), and the two
per-modem auxiliary fetches, which may fail. -/
structure Client where
  Version : String
  modems : List Modem
  getNetworkTime : Modem → Except String Int
  getSignal : Modem → Except String Signal

/-- Result of one scrape: the recorded samples on success, the
`metricslite.ScrapeError` (its `Metric` field and wrapped error text) on
failure, or a process abort from `panicf` / a nil-map-entry call. -/
inductive ScrapeOutcome where
  | ok (samples : List Sample)
  | scrapeError (metric : String) (err : String)
  | panicked (msg : String)
deriving DecidableEq

/-- The `c.ForEachModem` loop of `onScrape` (handler.go): for each modem
fetch network time then signal, wrapping a fetch failure with context
and aborting iteration; on success dispatch every metric name and
accumulate the emitted samples in iteration order. -/
def runModems (c : Client) (names : List String) :
    List Modem → ScrapeOutcome
  | [] => .ok []
  | m :: rest =>
    match c.getNetworkTime m with
    | .error e => .scrapeError mmInfo ("failed to get network time: " ++ e)
    | .ok now =>
      match c.getSignal m with
      | .error e =>
        .scrapeError mmInfo ("failed to get signal strength: " ++ e)
      | .ok s =>
        match emitModem names m now s with
        | none => .panicked "modemmanager_exporter: unhandled metric"
        | some out =>
          match runModems c names rest with
          | .ok acc => .ok (out ++ acc)
          | other => other

/-- `onScrape`'s returned `metricslite.ScrapeFunc` (handler.go): run the
modem loop; on error return the wrapped `ScrapeError`; otherwise call
`metrics[mmInfo](1.0, c.Version)` — which in Go dereferences a nil map
entry (a panic) when `mmInfo` is not a key of the sink's map — and
succeed. -/
def onScrape (c : Client) (names : List String) : ScrapeOutcome :=
  match runModems c names c.modems with
  | .ok samples =>
    if mmInfo ∈ names then
      .ok (samples ++ [⟨mmInfo, 1, [c.Version]⟩])
    else
      .panicked "runtime error: invalid memory address or nil pointer dereference"
  | other => other

/-- A modem for which both auxiliary fetches succeed and every metric
name of the sink's map is handled by the dispatch switch. -/
def modemOK (c : Client) (names : List String) (m : Modem) : Prop :=
  ∃ t sg out, c.getNetworkTime m = Except.ok t ∧
    c.getSignal m = Except.ok sg ∧ emitModem names m t sg = some out

/-- Sample-list equality up to reordering, lifted to the optional result
of `emitModem`. -/
def OptionSamplesPerm : Option (List Sample) → Option (List Sample) → Prop
  | some xs, some ys => xs.Perm ys
  | none, none => True
  | _, _ => False

/-- Scrape outcomes that agree as observations: identical errors,
process abort on both sides, or success with the same multiset of
samples. -/
def OutcomePerm : ScrapeOutcome → ScrapeOutcome → Prop
  | .ok xs, .ok ys => xs.Perm ys
  | .scrapeError m₁ e₁, .scrapeError m₂ e₂ => m₁ = m₂ ∧ e₁ = e₂
  | .panicked _, .panicked _ => True
  | _, _ => False

/-- The canned modem of the repository's own test (handler_test.go). -/
def fooModem : Modem :=
  { DeviceIdentifier := "foo", Revision := "2020-07-17",
    EquipmentIdentifier := "deadbeef", Model := "Test Modem",
    PowerState := PowerStateOn, State := StateConnected,
    Ports := [⟨"ttyUSB0", PortType.atCmd⟩, ⟨"wwan0", PortType.net⟩] }

/-- The canned signal reading of the repository's own test. -/
def fooSignal : Signal := ⟨⟨-116, -17, -81, 1⟩⟩

/-- A client exposing the canned modem with both fetches succeeding. -/
def fooClient : Client :=
  { Version := "1.14.8", modems := [fooModem],
    getNetworkTime := fun _ => Except.ok 1,
    getSignal := fun _ => Except.ok fooSignal }

/-- A client whose network-time fetch always fails. -/
def timeFailClient : Client :=
  { Version := "1.14.8", modems := [fooModem],
    getNetworkTime := fun _ => Except.error "dbus timeout",
    getSignal := fun _ => Except.ok fooSignal }

/-- A client that manages no modems at all. -/
def emptyClient : Client :=
  { Version := "1.14.8", modems := [],
    getNetworkTime := fun _ => Except.ok 1,
    getSignal := fun _ => Except.ok fooSignal }

/-- A modem whose active states lie outside both domain tables. -/
def strayModem : Modem :=
  { DeviceIdentifier := "bar", Revision := "r", EquipmentIdentifier := "e",
    Model := "m", PowerState := 99, State := 99, Ports := [] }

/-- A client exposing the stray-state modem with both fetches
succeeding. -/
def strayClient : Client :=
  { Version := "1.14.8", modems := [strayModem],
    getNetworkTime := fun _ => Except.ok 7,
    getSignal := fun _ => Except.ok fooSignal }

/-- A modem whose power state is stray while its connection state is a
domain member. -/
def mixedStrayModem : Modem :=
  { DeviceIdentifier := "baz", Revision := "r", EquipmentIdentifier := "e",
    Model := "m", PowerState := 99, State := StateConnected, Ports := [] }

/-- A client whose signal fetch always fails after a successful
network-time fetch. -/
def signalFailClient : Client :=
  { Version := "1.14.8", modems := [fooModem],
    getNetworkTime := fun _ => Except.ok 1,
    getSignal := fun _ => Except.error "modem gone" }

/-- The samples `onScrape` records for `fooClient` before the final
process-metadata sample, in emission order. -/
def fooScrapeSamples : List Sample :=
  [⟨mmModemInfo, 1, ["foo", "2020-07-17", "deadbeef", "Test Modem"]⟩,
   ⟨mmModemNetworkPortInfo, 1, ["foo", "wwan0"]⟩,
   ⟨mmModemNetworkTimestamp, ((1 : Int) : ℚ), ["foo"]⟩,
   ⟨mmModemPowerState, 0, ["foo", "unknown"]⟩,
   ⟨mmModemPowerState, 0, ["foo", "off"]⟩,
   ⟨mmModemPowerState, 0, ["foo", "low"]⟩,
   ⟨mmModemPowerState, 1, ["foo", "on"]⟩,
   ⟨mmModemState, 0, ["foo", "failed"]⟩,
   ⟨mmModemState, 0, ["foo", "unknown"]⟩,
   ⟨mmModemState, 0, ["foo", "locked"]⟩,
   ⟨mmModemState, 0, ["foo", "disabled"]⟩,
   ⟨mmModemState, 0, ["foo", "disabling"]⟩,
   ⟨mmModemState, 0, ["foo", "enabling"]⟩,
   ⟨mmModemState, 0, ["foo", "enabled"]⟩,
   ⟨mmModemState, 0, ["foo", "searching"]⟩,
   ⟨mmModemState, 0, ["foo", "registered"]⟩,
   ⟨mmModemState, 0, ["foo", "disconnecting"]⟩,
   ⟨mmModemState, 0, ["foo", "connecting"]⟩,
   ⟨mmModemState, 1, ["foo", "connected"]⟩,
   ⟨mmModemSignalLTERSRQ, -17, ["foo"]⟩,
   ⟨mmModemSignalLTERSRP, -116, ["foo"]⟩,
   ⟨mmModemSignalLTERSSI, -81, ["foo"]⟩,
   ⟨mmModemSignalLTESNR, 1, ["foo"]⟩]

end MMX
namespace MMX

theorem filterMap_port_eq (id : String) (ps : List Port) :
    (ps.filterMap fun p =>
      if p.Typ ≠ PortType.net then none
      else some (⟨mmModemNetworkPortInfo, 1, [id, p.Name]⟩ : Sample)) =
    (ps.filter fun p => decide (p.Typ = PortType.net)).map
      (fun p => ⟨mmModemNetworkPortInfo, 1, [id, p.Name]⟩) := by
  induction ps with
  | nil => rfl
  | cons p rest ih =>
    simp only [ite_not] at ih ⊢
    by_cases h : p.Typ = PortType.net <;>
      simp [List.filterMap_cons, List.filter_cons, h, ih]

theorem portInfo_eq_filter (m : Modem) :
    portInfo m =
    (m.Ports.filter fun p => decide (p.Typ = PortType.net)).map
      (fun p => ⟨mmModemNetworkPortInfo, 1, [m.DeviceIdentifier, p.Name]⟩) :=
  filterMap_port_eq m.DeviceIdentifier m.Ports

theorem emitModem_declared (m : Modem) (now : Int) (s : Signal) :
    emitModem declaredMetricNames m now s =
      some ([⟨mmModemInfo, 1, [m.DeviceIdentifier, m.Revision,
              m.EquipmentIdentifier, m.Model]⟩] ++
        (portInfo m ++
        ([⟨mmModemNetworkTimestamp, (now : ℚ), [m.DeviceIdentifier]⟩] ++
        (powerState m ++
        (state m ++
        ([⟨mmModemSignalLTERSRQ, s.LTE.RSRQ, [m.DeviceIdentifier]⟩] ++
        ([⟨mmModemSignalLTERSRP, s.LTE.RSRP, [m.DeviceIdentifier]⟩] ++
        ([⟨mmModemSignalLTERSSI, s.LTE.RSSI, [m.DeviceIdentifier]⟩] ++
         [⟨mmModemSignalLTESNR, s.LTE.SNR, [m.DeviceIdentifier]⟩])))))))) := by
  rfl

end MMX
namespace MMX

theorem portInfo_metric_value (m : Modem) :
    ∀ smp ∈ portInfo m, smp.metric = mmModemNetworkPortInfo ∧ smp.value = 1 := by
  intro smp hsmp
  rw [portInfo_eq_filter] at hsmp
  simp only [List.mem_map] at hsmp
  obtain ⟨p, _, rfl⟩ := hsmp
  exact ⟨rfl, rfl⟩

theorem powerState_metric (m : Modem) :
    ∀ smp ∈ powerState m, smp.metric = mmModemPowerState := by
  intro smp hsmp
  simp only [powerState, List.mem_map] at hsmp
  obtain ⟨e, _, rfl⟩ := hsmp
  rfl

theorem state_metric (m : Modem) :
    ∀ smp ∈ state m, smp.metric = mmModemState := by
  intro smp hsmp
  simp only [state, List.mem_map] at hsmp
  obtain ⟨e, _, rfl⟩ := hsmp
  rfl

/-- C5: for every device and ordered port sequence, the port filter emits
exactly one sample (value 1.0, labels = device id and port name) per port
of network-interface type, in port order, and no sample for any port of a
different type. -/
theorem network_port_filter (m : Modem) :
    portInfo m =
      (m.Ports.filter fun p => decide (p.Typ = PortType.net)).map
        (fun p => ⟨mmModemNetworkPortInfo, 1, [m.DeviceIdentifier, p.Name]⟩) ∧
    (portInfo m).length = m.Ports.countP (fun p => decide (p.Typ = PortType.net)) ∧
    (∀ p ∈ m.Ports, p.Typ = PortType.net →
      (⟨mmModemNetworkPortInfo, 1, [m.DeviceIdentifier, p.Name]⟩ : Sample) ∈ portInfo m) ∧
    (∀ smp ∈ portInfo m, smp.value = 1 ∧ smp.metric = mmModemNetworkPortInfo ∧
      ∃ p ∈ m.Ports, p.Typ = PortType.net ∧ smp.labels = [m.DeviceIdentifier, p.Name]) := by
  refine ⟨portInfo_eq_filter m, ?_, ?_, ?_⟩
  · rw [portInfo_eq_filter, List.length_map, List.countP_eq_length_filter]
  · intro p hp htype
    rw [portInfo_eq_filter]
    exact List.mem_map_of_mem _ (List.mem_filter.mpr ⟨hp, by simp [htype]⟩)
  · intro smp hsmp
    rw [portInfo_eq_filter] at hsmp
    simp only [List.mem_map] at hsmp
    obtain ⟨p, hp, rfl⟩ := hsmp
    have hp' := List.mem_filter.mp hp
    exact ⟨rfl, rfl, p, hp'.1, by simpa using hp'.2, rfl⟩

theorem network_port_filter_witness :
    (⟨mmModemNetworkPortInfo, 1, ["foo", "wwan0"]⟩ : Sample) ∈ portInfo fooModem :=
  (network_port_filter fooModem).2.2.1 ⟨"wwan0", PortType.net⟩ (by decide) rfl

/-- C10: per-device, each multi-sample metric is emitted in a fixed
order: power states as (unknown, off, low, on), connection states as
(failed, unknown, locked, disabled, disabling, enabling, enabled,
searching, registered, disconnecting, connecting, connected), and
network-port samples in the order of the device's port sequence. -/
theorem multi_sample_order (m : Modem) :
    (powerState m).map Sample.labels =
      [[m.DeviceIdentifier, "unknown"], [m.DeviceIdentifier, "off"],
       [m.DeviceIdentifier, "low"], [m.DeviceIdentifier, "on"]] ∧
    (state m).map Sample.labels =
      [[m.DeviceIdentifier, "failed"], [m.DeviceIdentifier, "unknown"],
       [m.DeviceIdentifier, "locked"], [m.DeviceIdentifier, "disabled"],
       [m.DeviceIdentifier, "disabling"], [m.DeviceIdentifier, "enabling"],
       [m.DeviceIdentifier, "enabled"], [m.DeviceIdentifier, "searching"],
       [m.DeviceIdentifier, "registered"], [m.DeviceIdentifier, "disconnecting"],
       [m.DeviceIdentifier, "connecting"], [m.DeviceIdentifier, "connected"]] ∧
    (portInfo m).map Sample.labels =
      (m.Ports.filter fun p => decide (p.Typ = PortType.net)).map
        (fun p => [m.DeviceIdentifier, p.Name]) := by
  refine ⟨rfl, rfl, ?_⟩
  rw [portInfo_eq_filter, List.map_map]
  rfl

end MMX
namespace MMX

theorem powerState_value_cases (m : Modem) :
    ∀ smp ∈ powerState m, smp.value = 1 ∨ smp.value = 0 := by
  intro smp hsmp
  simp only [powerState, List.mem_map] at hsmp
  obtain ⟨e, _, rfl⟩ := hsmp
  by_cases h : e.2 = m.PowerState <;> simp [h]

theorem state_value_cases (m : Modem) :
    ∀ smp ∈ state m, smp.value = 1 ∨ smp.value = 0 := by
  intro smp hsmp
  simp only [state, List.mem_map] at hsmp
  obtain ⟨e, _, rfl⟩ := hsmp
  by_cases h : e.2 = m.State <;> simp [h]

theorem powerState_countP_table (m : Modem) :
    (powerState m).countP (fun smp => decide (smp.value = 1)) =
      powerStatesTable.countP (fun e => decide (e.2 = m.PowerState)) := by
  unfold powerState
  rw [List.countP_map]
  apply List.countP_congr
  intro e _
  by_cases h : e.2 = m.PowerState <;> simp [Function.comp, h]

theorem state_countP_table (m : Modem) :
    (state m).countP (fun smp => decide (smp.value = 1)) =
      statesTable.countP (fun e => decide (e.2 = m.State)) := by
  unfold state
  rw [List.countP_map]
  apply List.countP_congr
  intro e _
  by_cases h : e.2 = m.State <;> simp [Function.comp, h]

/-- C1: for every device with an in-domain active state, the power-state
encoder emits exactly 4 samples (one per domain member) and the
connection-state encoder exactly 12, each labelled with the device id
and the member's name, with exactly one sample per domain valued 1.0
(the member equal to the active state) and all others 0.0. -/
theorem one_hot_encoding (m : Modem)
    (hp : m.PowerState ∈ powerStatesTable.map Prod.snd)
    (hs : m.State ∈ statesTable.map Prod.snd) :
    (powerState m).length = 4 ∧ (state m).length = 12 ∧
    (∀ e ∈ powerStatesTable,
      (⟨mmModemPowerState, if e.2 = m.PowerState then 1 else 0,
        [m.DeviceIdentifier, e.1]⟩ : Sample) ∈ powerState m) ∧
    (∀ e ∈ statesTable,
      (⟨mmModemState, if e.2 = m.State then 1 else 0,
        [m.DeviceIdentifier, e.1]⟩ : Sample) ∈ state m) ∧
    (∀ smp ∈ powerState m, smp.metric = mmModemPowerState ∧
      (smp.value = 1 ∨ smp.value = 0)) ∧
    (∀ smp ∈ state m, smp.metric = mmModemState ∧
      (smp.value = 1 ∨ smp.value = 0)) ∧
    (powerState m).countP (fun smp => decide (smp.value = 1)) = 1 ∧
    (state m).countP (fun smp => decide (smp.value = 1)) = 1 := by
  refine ⟨rfl, rfl, ?_, ?_, ?_, ?_, ?_, ?_⟩
  · intro e he
    exact List.mem_map_of_mem _ he
  · intro e he
    exact List.mem_map_of_mem _ he
  · intro smp hsmp
    exact ⟨powerState_metric m smp hsmp, powerState_value_cases m smp hsmp⟩
  · intro smp hsmp
    exact ⟨state_metric m smp hsmp, state_value_cases m smp hsmp⟩
  · rw [powerState_countP_table]
    simp only [powerStatesTable, PowerStateUnknown, PowerStateOff, PowerStateLow,
      PowerStateOn, List.map_cons, List.map_nil, List.mem_cons] at hp
    rcases hp with h | h | h | h | h <;> first
      | (rw [h]; decide)
      | simp at h
  · rw [state_countP_table]
    simp only [statesTable, StateFailed, StateUnknown, StateLocked, StateDisabled,
      StateDisabling, StateEnabling, StateEnabled, StateSearching, StateRegistered,
      StateDisconnecting, StateConnecting, StateConnected,
      List.map_cons, List.map_nil, List.mem_cons] at hs
    rcases hs with h|h|h|h|h|h|h|h|h|h|h|h|h <;> first
      | (rw [h]; decide)
      | simp at h

theorem one_hot_encoding_witness :
    fooModem.PowerState ∈ powerStatesTable.map Prod.snd ∧
    fooModem.State ∈ statesTable.map Prod.snd ∧
    (powerState fooModem).countP (fun smp => decide (smp.value = 1)) = 1 ∧
    (state fooModem).countP (fun smp => decide (smp.value = 1)) = 1 :=
  ⟨by decide, by decide,
   (one_hot_encoding fooModem (by decide) (by decide)).2.2.2.2.2.2.1,
   (one_hot_encoding fooModem (by decide) (by decide)).2.2.2.2.2.2.2⟩

end MMX
namespace MMX

/-- C7: if a device's active power state equals no member of the
power-state domain table, every power-state sample is 0.0; if its
active connection state equals no member of the connection-state
table, every connection-state sample is 0.0 — the two implications are
independent — and for any client exposing such a device with both
fetches succeeding the scrape still succeeds. -/
theorem stray_state_all_zero (m : Modem) :
    (m.PowerState ∉ powerStatesTable.map Prod.snd →
      ∀ smp ∈ powerState m, smp.value = 0) ∧
    (m.State ∉ statesTable.map Prod.snd →
      ∀ smp ∈ state m, smp.value = 0) ∧
    (∀ (c : Client) (t : Int) (sg : Signal),
      c.modems = [m] → c.getNetworkTime m = Except.ok t →
      c.getSignal m = Except.ok sg →
      ∃ xs, onScrape c declaredMetricNames = .ok xs) := by
  refine ⟨?_, ?_, ?_⟩
  · intro hp smp hsmp
    simp only [powerState, List.mem_map] at hsmp
    obtain ⟨e, he, rfl⟩ := hsmp
    have hne : e.2 ≠ m.PowerState :=
      fun hEq => hp (hEq ▸ List.mem_map_of_mem Prod.snd he)
    simp [hne]
  · intro hs smp hsmp
    simp only [state, List.mem_map] at hsmp
    obtain ⟨e, he, rfl⟩ := hsmp
    have hne : e.2 ≠ m.State :=
      fun hEq => hs (hEq ▸ List.mem_map_of_mem Prod.snd he)
    simp [hne]
  · intro c t sg hm ht hsg
    unfold onScrape
    rw [hm]
    simp only [runModems, ht, hsg, emitModem_declared]
    rw [if_pos (by decide : mmInfo ∈ declaredMetricNames)]
    exact ⟨_, rfl⟩

theorem stray_state_all_zero_witness :
    (⟨mmModemPowerState, 0, ["bar", "unknown"]⟩ : Sample).value = 0 ∧
    (⟨mmModemPowerState, 0, ["baz", "unknown"]⟩ : Sample).value = 0 ∧
    (⟨mmModemState, 0, ["bar", "connected"]⟩ : Sample).value = 0 ∧
    onScrape strayClient declaredMetricNames ≠ .panicked "boom" := by
  have h := stray_state_all_zero strayModem
  have hmix := stray_state_all_zero mixedStrayModem
  refine ⟨h.1 (by decide) _ (by decide), hmix.1 (by decide) _ (by decide),
    h.2.1 (by decide) _ (by decide), ?_⟩
  obtain ⟨xs, hxs⟩ := h.2.2 strayClient 7 fooSignal rfl rfl rfl
  rw [hxs]
  exact fun hc => ScrapeOutcome.noConfusion hc

theorem dispatch_some_of_declared (m : Modem) (now : Int) (s : Signal) :
    ∀ name ∈ declaredMetricNames, (dispatchMetric m now s name).isSome = true := by
  intro name h
  fin_cases h <;> rfl

theorem dispatch_none_of_unknown (m : Modem) (now : Int) (s : Signal)
    (name : String) (h : name ∉ declaredMetricNames) :
    dispatchMetric m now s name = none := by
  simp only [declaredMetricNames, List.mem_cons, List.not_mem_nil, or_false,
    not_or] at h
  obtain ⟨h1, h2, h3, h4, h5, h6, h7, h8, h9, h10⟩ := h
  simp [dispatchMetric, h1, h2, h3, h4, h5, h6, h7, h8, h9, h10]

theorem emitModem_some_of_subset (m : Modem) (now : Int) (s : Signal) :
    ∀ names : List String, (∀ n ∈ names, n ∈ declaredMetricNames) →
      (emitModem names m now s).isSome = true := by
  intro names
  induction names with
  | nil => intro _; rfl
  | cons n rest ih =>
    intro h
    obtain ⟨out, hout⟩ := Option.isSome_iff_exists.mp
      (dispatch_some_of_declared m now s n (h n (List.mem_cons_self n rest)))
    obtain ⟨acc, hacc⟩ := Option.isSome_iff_exists.mp
      (ih (fun x hx => h x (List.mem_cons_of_mem _ hx)))
    simp [emitModem, hout, hacc]

theorem runModems_no_panic (c : Client) (names : List String)
    (h : ∀ n ∈ names, n ∈ declaredMetricNames) :
    ∀ (mods : List Modem) (msg : String),
      runModems c names mods ≠ .panicked msg := by
  intro mods
  induction mods with
  | nil => intro msg hcon; simp [runModems] at hcon
  | cons m rest ih =>
    intro msg
    cases ht : c.getNetworkTime m with
    | error e => simp [runModems, ht]
    | ok t =>
      cases hsg : c.getSignal m with
      | error e => simp [runModems, ht, hsg]
      | ok sg =>
        obtain ⟨out, hout⟩ := Option.isSome_iff_exists.mp
          (emitModem_some_of_subset m t sg names h)
        cases hrest : runModems c names rest with
        | panicked msg2 => exact absurd hrest (ih msg2)
        | ok acc => simp [runModems, ht, hsg, hout, hrest]
        | scrapeError a b => simp [runModems, ht, hsg, hout, hrest]

/-- C4: the dispatch switch handles exactly the ten declared metric
names — any other key aborts via panic — and when the sink's key set is
exactly the declared names the panic branch is unreachable for the whole
scrape. -/
theorem dispatch_lockstep (m : Modem) (now : Int) (s : Signal) :
    (∀ name ∈ declaredMetricNames, (dispatchMetric m now s name).isSome = true) ∧
    (∀ name, name ∉ declaredMetricNames → dispatchMetric m now s name = none) ∧
    (∀ (c : Client) (names : List String),
      (∀ n, n ∈ names ↔ n ∈ declaredMetricNames) →
      ∀ msg, onScrape c names ≠ .panicked msg) := by
  refine ⟨dispatch_some_of_declared m now s, ?_, ?_⟩
  · intro name h
    exact dispatch_none_of_unknown m now s name h
  · intro c names hset msg
    have hsub : ∀ n ∈ names, n ∈ declaredMetricNames := fun n hn => (hset n).mp hn
    have hmm : mmInfo ∈ names := (hset mmInfo).mpr (by decide)
    cases hrun : runModems c names c.modems with
    | ok xs => simp [onScrape, hrun, if_pos hmm]
    | scrapeError a b => simp [onScrape, hrun]
    | panicked msg2 => exact absurd hrun (runModems_no_panic c names hsub c.modems msg2)

theorem dispatch_lockstep_witness :
    (dispatchMetric fooModem 1 fooSignal mmModemInfo).isSome = true ∧
    dispatchMetric fooModem 1 fooSignal "bogus_metric" = none ∧
    onScrape fooClient declaredMetricNames ≠ .panicked "boom" := by
  obtain ⟨a, b, cc⟩ := dispatch_lockstep fooModem 1 fooSignal
  exact ⟨a mmModemInfo (by decide), b "bogus_metric" (by decide),
    cc fooClient declaredMetricNames (fun n => Iff.rfl) "boom"⟩

end MMX
namespace MMX

theorem dispatch_metric_not_info (m : Modem) (now : Int) (s : Signal)
    (name : String) (out : List Sample)
    (h : dispatchMetric m now s name = some out) :
    ∀ smp ∈ out, smp.metric ≠ mmInfo := by
  by_cases hn : name ∈ declaredMetricNames
  · fin_cases hn
    · injection h with h'
      subst h'
      intro smp hsmp
      exact absurd hsmp (List.not_mem_nil smp)
    · injection h with h'
      subst h'
      intro smp hsmp
      rw [List.mem_singleton] at hsmp
      subst hsmp
      exact (by decide : mmModemInfo ≠ mmInfo)
    · injection h with h'
      subst h'
      intro smp hsmp
      rw [(portInfo_metric_value m smp hsmp).1]
      decide
    · injection h with h'
      subst h'
      intro smp hsmp
      rw [List.mem_singleton] at hsmp
      subst hsmp
      exact (by decide : mmModemNetworkTimestamp ≠ mmInfo)
    · injection h with h'
      subst h'
      intro smp hsmp
      rw [powerState_metric m smp hsmp]
      decide
    · injection h with h'
      subst h'
      intro smp hsmp
      rw [state_metric m smp hsmp]
      decide
    · injection h with h'
      subst h'
      intro smp hsmp
      rw [List.mem_singleton] at hsmp
      subst hsmp
      exact (by decide : mmModemSignalLTERSRQ ≠ mmInfo)
    · injection h with h'
      subst h'
      intro smp hsmp
      rw [List.mem_singleton] at hsmp
      subst hsmp
      exact (by decide : mmModemSignalLTERSRP ≠ mmInfo)
    · injection h with h'
      subst h'
      intro smp hsmp
      rw [List.mem_singleton] at hsmp
      subst hsmp
      exact (by decide : mmModemSignalLTERSSI ≠ mmInfo)
    · injection h with h'
      subst h'
      intro smp hsmp
      rw [List.mem_singleton] at hsmp
      subst hsmp
      exact (by decide : mmModemSignalLTESNR ≠ mmInfo)
  · rw [dispatch_none_of_unknown m now s name hn] at h
    exact Option.noConfusion h

theorem emitModem_not_info (m : Modem) (now : Int) (s : Signal) :
    ∀ (names : List String) (out : List Sample),
      emitModem names m now s = some out → ∀ smp ∈ out, smp.metric ≠ mmInfo := by
  intro names
  induction names with
  | nil =>
    intro out h
    injection h with h'
    subst h'
    intro smp hsmp
    exact absurd hsmp (List.not_mem_nil smp)
  | cons n rest ih =>
    intro out h
    cases hd : dispatchMetric m now s n with
    | none =>
      simp only [emitModem, hd] at h
      exact Option.noConfusion h
    | some o1 =>
      cases hr : emitModem rest m now s with
      | none =>
        simp only [emitModem, hd, hr] at h
        exact Option.noConfusion h
      | some o2 =>
        simp only [emitModem, hd, hr] at h
        injection h with h'
        subst h'
        intro smp hsmp
        rcases List.mem_append.mp hsmp with h1 | h2
        · exact dispatch_metric_not_info m now s n o1 hd smp h1
        · exact ih o2 hr smp h2

theorem runModems_ok_not_info (c : Client) (names : List String) :
    ∀ (mods : List Modem) (xs : List Sample),
      runModems c names mods = .ok xs → ∀ smp ∈ xs, smp.metric ≠ mmInfo := by
  intro mods
  induction mods with
  | nil =>
    intro xs h
    simp only [runModems] at h
    injection h with h'
    subst h'
    intro smp hsmp
    exact absurd hsmp (List.not_mem_nil smp)
  | cons m rest ih =>
    intro xs h
    cases ht : c.getNetworkTime m with
    | error e =>
      simp only [runModems, ht] at h
      exact ScrapeOutcome.noConfusion h
    | ok t =>
      cases hsg : c.getSignal m with
      | error e =>
        simp only [runModems, ht, hsg] at h
        exact ScrapeOutcome.noConfusion h
      | ok sg =>
        cases hemit : emitModem names m t sg with
        | none =>
          simp only [runModems, ht, hsg, hemit] at h
          exact ScrapeOutcome.noConfusion h
        | some out =>
          cases hrest : runModems c names rest with
          | scrapeError a b =>
            simp only [runModems, ht, hsg, hemit, hrest] at h
            exact ScrapeOutcome.noConfusion h
          | panicked msg =>
            simp only [runModems, ht, hsg, hemit, hrest] at h
            exact ScrapeOutcome.noConfusion h
          | ok acc =>
            simp only [runModems, ht, hsg, hemit, hrest] at h
            injection h with h'
            subst h'
            intro smp hsmp
            rcases List.mem_append.mp hsmp with h1 | h2
            · exact emitModem_not_info m t sg names out hemit smp h1
            · exact ih acc hrest smp h2

theorem metadata_emitter (c : Client) :
    (∀ xs : List Sample, runModems c declaredMetricNames c.modems = .ok xs →
      onScrape c declaredMetricNames = .ok (xs ++ [⟨mmInfo, 1, [c.Version]⟩]) ∧
      List.countP (fun smp => decide (smp.metric = mmInfo))
        (xs ++ [(⟨mmInfo, 1, [c.Version]⟩ : Sample)]) = 1) ∧
    (c.modems = [] →
      onScrape c declaredMetricNames = .ok [⟨mmInfo, 1, [c.Version]⟩]) ∧
    (∀ mt e, runModems c declaredMetricNames c.modems = .scrapeError mt e →
      onScrape c declaredMetricNames = .scrapeError mt e) := by
  refine ⟨?_, ?_, ?_⟩
  · intro xs h
    constructor
    · simp only [onScrape, h]
      rw [if_pos (by decide : mmInfo ∈ declaredMetricNames)]
    · rw [List.countP_append]
      have h0 : xs.countP (fun smp => decide (smp.metric = mmInfo)) = 0 := by
        rw [List.countP_eq_zero]
        intro smp hsmp
        simpa using runModems_ok_not_info c declaredMetricNames c.modems xs h smp hsmp
      rw [h0]
      simp [List.countP_cons]
  · intro h
    simp only [onScrape, h, runModems]
    rw [if_pos (by decide : mmInfo ∈ declaredMetricNames)]
    simp
  · intro mt e h
    simp only [onScrape, h]

theorem metadata_emitter_witness :
    onScrape emptyClient declaredMetricNames =
      .ok [⟨mmInfo, 1, ["1.14.8"]⟩] :=
  (metadata_emitter emptyClient).2.1 rfl

end MMX
namespace MMX

theorem runModems_ok_mem (c : Client) (names : List String) :
    ∀ (mods : List Modem) (xs : List Sample),
      runModems c names mods = .ok xs →
      ∀ m ∈ mods, ∃ t sg out, c.getNetworkTime m = Except.ok t ∧
        c.getSignal m = Except.ok sg ∧ emitModem names m t sg = some out ∧
        ∀ smp ∈ out, smp ∈ xs := by
  intro mods
  induction mods with
  | nil =>
    intro xs h m hm
    exact absurd hm (List.not_mem_nil m)
  | cons m0 rest ih =>
    intro xs h m hm
    cases ht : c.getNetworkTime m0 with
    | error e =>
      simp only [runModems, ht] at h
      exact ScrapeOutcome.noConfusion h
    | ok t =>
      cases hsg : c.getSignal m0 with
      | error e =>
        simp only [runModems, ht, hsg] at h
        exact ScrapeOutcome.noConfusion h
      | ok sg =>
        cases hemit : emitModem names m0 t sg with
        | none =>
          simp only [runModems, ht, hsg, hemit] at h
          exact ScrapeOutcome.noConfusion h
        | some out =>
          cases hrest : runModems c names rest with
          | scrapeError a b =>
            simp only [runModems, ht, hsg, hemit, hrest] at h
            exact ScrapeOutcome.noConfusion h
          | panicked msg =>
            simp only [runModems, ht, hsg, hemit, hrest] at h
            exact ScrapeOutcome.noConfusion h
          | ok acc =>
            simp only [runModems, ht, hsg, hemit, hrest] at h
            injection h with h'
            subst h'
            rcases List.mem_cons.mp hm with rfl | hm'
            · exact ⟨t, sg, out, ht, hsg, hemit,
                fun smp hs => List.mem_append_left _ hs⟩
            · obtain ⟨t', sg', out', h1, h2, h3, h4⟩ := ih acc hrest m hm'
              exact ⟨t', sg', out', h1, h2, h3,
                fun smp hs => List.mem_append_right _ (h4 smp hs)⟩

theorem powerState_countP_zero (m : Modem) (q : String)
    (hq : q ≠ mmModemPowerState) :
    List.countP (fun smp => decide (smp.metric = q)) (powerState m) = 0 := by
  rw [List.countP_eq_zero]
  intro smp hsmp
  simp [powerState_metric m smp hsmp]
  exact fun hEq => hq hEq.symm

theorem state_countP_zero (m : Modem) (q : String)
    (hq : q ≠ mmModemState) :
    List.countP (fun smp => decide (smp.metric = q)) (state m) = 0 := by
  rw [List.countP_eq_zero]
  intro smp hsmp
  simp [state_metric m smp hsmp]
  exact fun hEq => hq hEq.symm

theorem portInfo_countP_zero (m : Modem) (q : String)
    (hq : q ≠ mmModemNetworkPortInfo) :
    List.countP (fun smp => decide (smp.metric = q)) (portInfo m) = 0 := by
  rw [List.countP_eq_zero]
  intro smp hsmp
  simp [(portInfo_metric_value m smp hsmp).1]
  exact fun hEq => hq hEq.symm

/-- C6: for every device whose auxiliary fetches succeed within a
successful scrape, the scrape's output contains one modem-metadata
sample (value 1.0, labels = id, firmware revision, equipment id,
model), one network-timestamp sample valued at the integer epoch
seconds (labelled with the device id only), and one sample per signal
scalar carrying the raw reading (labelled with the device id only) —
exactly one of each among that device's own emission. -/
theorem per_device_samples (c : Client) (m : Modem) (t : Int) (sg : Signal)
    (xs : List Sample)
    (hm : m ∈ c.modems)
    (ht : c.getNetworkTime m = Except.ok t)
    (hsg : c.getSignal m = Except.ok sg)
    (hrun : runModems c declaredMetricNames c.modems = .ok xs) :
    onScrape c declaredMetricNames = .ok (xs ++ [⟨mmInfo, 1, [c.Version]⟩]) ∧
    ∃ out, emitModem declaredMetricNames m t sg = some out ∧
      (∀ smp ∈ out, smp ∈ xs) ∧
      (⟨mmModemInfo, 1, [m.DeviceIdentifier, m.Revision,
        m.EquipmentIdentifier, m.Model]⟩ : Sample) ∈ out ∧
      (⟨mmModemNetworkTimestamp, (t : ℚ), [m.DeviceIdentifier]⟩ : Sample) ∈ out ∧
      (⟨mmModemSignalLTERSRP, sg.LTE.RSRP, [m.DeviceIdentifier]⟩ : Sample) ∈ out ∧
      (⟨mmModemSignalLTERSRQ, sg.LTE.RSRQ, [m.DeviceIdentifier]⟩ : Sample) ∈ out ∧
      (⟨mmModemSignalLTERSSI, sg.LTE.RSSI, [m.DeviceIdentifier]⟩ : Sample) ∈ out ∧
      (⟨mmModemSignalLTESNR, sg.LTE.SNR, [m.DeviceIdentifier]⟩ : Sample) ∈ out ∧
      List.countP (fun smp => decide (smp.metric = mmModemInfo)) out = 1 ∧
      List.countP (fun smp => decide (smp.metric = mmModemNetworkTimestamp)) out = 1 ∧
      List.countP (fun smp => decide (smp.metric = mmModemSignalLTERSRP)) out = 1 ∧
      List.countP (fun smp => decide (smp.metric = mmModemSignalLTERSRQ)) out = 1 ∧
      List.countP (fun smp => decide (smp.metric = mmModemSignalLTERSSI)) out = 1 ∧
      List.countP (fun smp => decide (smp.metric = mmModemSignalLTESNR)) out = 1 := by
  obtain ⟨t', sg', out, h1, h2, h3, h4⟩ :=
    runModems_ok_mem c declaredMetricNames c.modems xs hrun m hm
  have htt : t = t' := Except.ok.inj (ht.symm.trans h1)
  have hss : sg = sg' := Except.ok.inj (hsg.symm.trans h2)
  subst htt hss
  refine ⟨?_, out, h3, h4, ?_⟩
  · simp only [onScrape, hrun]
    rw [if_pos (by decide : mmInfo ∈ declaredMetricNames)]
  · rw [emitModem_declared m t sg] at h3
    injection h3 with h3'
    subst h3'
    refine ⟨by simp, by simp, by simp, by simp, by simp, by simp, ?_, ?_, ?_, ?_, ?_, ?_⟩
    · simp only [List.countP_append]
      rw [portInfo_countP_zero m mmModemInfo (by decide),
          powerState_countP_zero m mmModemInfo (by decide),
          state_countP_zero m mmModemInfo (by decide)]
      simp [List.countP_cons, mmModemInfo, mmModemNetworkTimestamp,
        mmModemSignalLTERSRQ, mmModemSignalLTERSRP, mmModemSignalLTERSSI,
        mmModemSignalLTESNR]
    · simp only [List.countP_append]
      rw [portInfo_countP_zero m mmModemNetworkTimestamp (by decide),
          powerState_countP_zero m mmModemNetworkTimestamp (by decide),
          state_countP_zero m mmModemNetworkTimestamp (by decide)]
      simp [List.countP_cons, mmModemInfo, mmModemNetworkTimestamp,
        mmModemSignalLTERSRQ, mmModemSignalLTERSRP, mmModemSignalLTERSSI,
        mmModemSignalLTESNR]
    · simp only [List.countP_append]
      rw [portInfo_countP_zero m mmModemSignalLTERSRP (by decide),
          powerState_countP_zero m mmModemSignalLTERSRP (by decide),
          state_countP_zero m mmModemSignalLTERSRP (by decide)]
      simp [List.countP_cons, mmModemInfo, mmModemNetworkTimestamp,
        mmModemSignalLTERSRQ, mmModemSignalLTERSRP, mmModemSignalLTERSSI,
        mmModemSignalLTESNR]
    · simp only [List.countP_append]
      rw [portInfo_countP_zero m mmModemSignalLTERSRQ (by decide),
          powerState_countP_zero m mmModemSignalLTERSRQ (by decide),
          state_countP_zero m mmModemSignalLTERSRQ (by decide)]
      simp [List.countP_cons, mmModemInfo, mmModemNetworkTimestamp,
        mmModemSignalLTERSRQ, mmModemSignalLTERSRP, mmModemSignalLTERSSI,
        mmModemSignalLTESNR]
    · simp only [List.countP_append]
      rw [portInfo_countP_zero m mmModemSignalLTERSSI (by decide),
          powerState_countP_zero m mmModemSignalLTERSSI (by decide),
          state_countP_zero m mmModemSignalLTERSSI (by decide)]
      simp [List.countP_cons, mmModemInfo, mmModemNetworkTimestamp,
        mmModemSignalLTERSRQ, mmModemSignalLTERSRP, mmModemSignalLTERSSI,
        mmModemSignalLTESNR]
    · simp only [List.countP_append]
      rw [portInfo_countP_zero m mmModemSignalLTESNR (by decide),
          powerState_countP_zero m mmModemSignalLTESNR (by decide),
          state_countP_zero m mmModemSignalLTESNR (by decide)]
      simp [List.countP_cons, mmModemInfo, mmModemNetworkTimestamp,
        mmModemSignalLTERSRQ, mmModemSignalLTERSRP, mmModemSignalLTERSSI,
        mmModemSignalLTESNR]

end MMX
namespace MMX

theorem per_device_samples_witness :
    (⟨mmModemNetworkTimestamp, ((1 : Int) : ℚ), ["foo"]⟩ : Sample) ∈ fooScrapeSamples ∧
    (⟨mmModemSignalLTERSRP, -116, ["foo"]⟩ : Sample) ∈ fooScrapeSamples ∧
    onScrape fooClient declaredMetricNames =
      .ok (fooScrapeSamples ++ [⟨mmInfo, 1, ["1.14.8"]⟩]) := by
  have h := per_device_samples fooClient fooModem 1 fooSignal fooScrapeSamples
    (by decide) rfl rfl (by decide)
  obtain ⟨hscrape, out, hemit, hsub, hinfo, hts, hrsrp, hrest⟩ := h
  exact ⟨hsub _ hts, hsub _ hrsrp, hscrape⟩

end MMX
namespace MMX

theorem runModems_fail_fast (c : Client) (names : List String) :
    ∀ (pre : List Modem) (m : Modem),
      (∀ m' ∈ pre, modemOK c names m') →
      (∀ e, c.getNetworkTime m = Except.error e →
        ∀ rest, runModems c names (pre ++ m :: rest) =
          .scrapeError mmInfo ("failed to get network time: " ++ e)) ∧
      (∀ t e, c.getNetworkTime m = Except.ok t →
        c.getSignal m = Except.error e →
        ∀ rest, runModems c names (pre ++ m :: rest) =
          .scrapeError mmInfo ("failed to get signal strength: " ++ e)) := by
  intro pre
  induction pre with
  | nil =>
    intro m hpre
    constructor
    · intro e he rest
      simp [runModems, he]
    · intro t e ht he rest
      simp [runModems, ht, he]
  | cons p pre' ih =>
    intro m hpre
    obtain ⟨t0, sg0, out0, hpt, hpsg, hpe⟩ := hpre p (List.mem_cons_self p pre')
    obtain ⟨ih1, ih2⟩ := ih m (fun x hx => hpre x (List.mem_cons_of_mem _ hx))
    constructor
    · intro e he rest
      have hstep := ih1 e he rest
      simp [runModems, hpt, hpsg, hpe, hstep]
    · intro t e ht he rest
      have hstep := ih2 t e ht he rest
      simp [runModems, hpt, hpsg, hpe, hstep]

/-- C2: if a device's network-time fetch fails with error e, the scrape
returns the scrape error whose message wraps e with the network-time
context; if its signal fetch fails with error e after a successful
network-time fetch, the message wraps e with the signal context; in
both cases the scrape's output contains no samples at all and no later
device is processed. -/
theorem fail_fast_no_samples (c : Client) (names : List String)
    (pre rest : List Modem) (m : Modem)
    (hmods : c.modems = pre ++ m :: rest)
    (hpre : ∀ m' ∈ pre, modemOK c names m') :
    (∀ e, c.getNetworkTime m = Except.error e →
      onScrape c names =
        .scrapeError mmInfo ("failed to get network time: " ++ e) ∧
      (∀ xs, onScrape c names ≠ .ok xs) ∧
      (∀ rest', runModems c names (pre ++ m :: rest') =
        runModems c names (pre ++ m :: rest))) ∧
    (∀ t e, c.getNetworkTime m = Except.ok t →
      c.getSignal m = Except.error e →
      onScrape c names =
        .scrapeError mmInfo ("failed to get signal strength: " ++ e) ∧
      (∀ xs, onScrape c names ≠ .ok xs) ∧
      (∀ rest', runModems c names (pre ++ m :: rest') =
        runModems c names (pre ++ m :: rest))) := by
  obtain ⟨h1, h2⟩ := runModems_fail_fast c names pre m hpre
  constructor
  · intro e he
    have hsc : onScrape c names =
        .scrapeError mmInfo ("failed to get network time: " ++ e) := by
      simp [onScrape, hmods, h1 e he rest]
    refine ⟨hsc, ?_, ?_⟩
    · intro xs hcon
      rw [hsc] at hcon
      exact ScrapeOutcome.noConfusion hcon
    · intro rest'
      rw [h1 e he rest', h1 e he rest]
  · intro t e ht he
    have hsc : onScrape c names =
        .scrapeError mmInfo ("failed to get signal strength: " ++ e) := by
      simp [onScrape, hmods, h2 t e ht he rest]
    refine ⟨hsc, ?_, ?_⟩
    · intro xs hcon
      rw [hsc] at hcon
      exact ScrapeOutcome.noConfusion hcon
    · intro rest'
      rw [h2 t e ht he rest', h2 t e ht he rest]

theorem fail_fast_no_samples_witness :
    onScrape timeFailClient declaredMetricNames =
      .scrapeError mmInfo "failed to get network time: dbus timeout" ∧
    onScrape timeFailClient declaredMetricNames ≠ .ok [] ∧
    onScrape signalFailClient declaredMetricNames =
      .scrapeError mmInfo "failed to get signal strength: modem gone" := by
  obtain ⟨h1, -⟩ :=
    fail_fast_no_samples timeFailClient declaredMetricNames [] [] fooModem rfl
      (fun m' h => absurd h (List.not_mem_nil m'))
  obtain ⟨hsc, hok, -⟩ := h1 "dbus timeout" rfl
  obtain ⟨-, h2⟩ :=
    fail_fast_no_samples signalFailClient declaredMetricNames [] [] fooModem rfl
      (fun m' h => absurd h (List.not_mem_nil m'))
  obtain ⟨hsc2, -, -⟩ := h2 1 "modem gone" rfl rfl
  exact ⟨hsc, hok [], hsc2⟩

end MMX
namespace MMX

theorem emitModem_perm (m : Modem) (t : Int) (s : Signal)
    {names₁ names₂ : List String} (hperm : names₁.Perm names₂) :
    OptionSamplesPerm (emitModem names₁ m t s) (emitModem names₂ m t s) := by
  induction hperm with
  | nil =>
    simp [emitModem, OptionSamplesPerm]
  | @cons x l₁ l₂ hp ih =>
    cases hd : dispatchMetric m t s x with
    | none => simp [emitModem, hd, OptionSamplesPerm]
    | some out =>
      cases h1 : emitModem l₁ m t s with
      | none =>
        cases h2 : emitModem l₂ m t s with
        | none => simp [emitModem, hd, h1, h2, OptionSamplesPerm]
        | some o2 =>
          rw [h1, h2] at ih
          exact ih.elim
      | some o1 =>
        cases h2 : emitModem l₂ m t s with
        | none =>
          rw [h1, h2] at ih
          exact ih.elim
        | some o2 =>
          rw [h1, h2] at ih
          have hp12 : o1.Perm o2 := ih
          simp only [emitModem, hd, h1, h2, OptionSamplesPerm]
          exact hp12.append_left out
  | @swap x y l =>
    cases hx : dispatchMetric m t s x with
    | none =>
      cases hy : dispatchMetric m t s y <;>
        simp [emitModem, hx, hy, OptionSamplesPerm]
    | some ox =>
      cases hy : dispatchMetric m t s y with
      | none => simp [emitModem, hx, hy, OptionSamplesPerm]
      | some oy =>
        cases hl : emitModem l m t s with
        | none => simp [emitModem, hx, hy, hl, OptionSamplesPerm]
        | some acc =>
          simp only [emitModem, hx, hy, hl, OptionSamplesPerm]
          rw [← List.append_assoc, ← List.append_assoc]
          exact List.perm_append_comm.append_right acc
  | @trans l₁ l₂ l₃ h12 h23 ih1 ih2 =>
    cases h1 : emitModem l₁ m t s with
    | none =>
      cases h2 : emitModem l₂ m t s with
      | none =>
        cases h3 : emitModem l₃ m t s with
        | none => simp [OptionSamplesPerm]
        | some o3 =>
          rw [h2, h3] at ih2
          exact ih2.elim
      | some o2 =>
        rw [h1, h2] at ih1
        exact ih1.elim
    | some o1 =>
      cases h2 : emitModem l₂ m t s with
      | none =>
        rw [h1, h2] at ih1
        exact ih1.elim
      | some o2 =>
        cases h3 : emitModem l₃ m t s with
        | none =>
          rw [h2, h3] at ih2
          exact ih2.elim
        | some o3 =>
          rw [h1, h2] at ih1
          rw [h2, h3] at ih2
          have p12 : o1.Perm o2 := ih1
          have p23 : o2.Perm o3 := ih2
          simp only [OptionSamplesPerm]
          exact p12.trans p23

theorem runModems_perm (c : Client) {names₁ names₂ : List String}
    (hperm : names₁.Perm names₂) :
    ∀ mods, OutcomePerm (runModems c names₁ mods) (runModems c names₂ mods) := by
  intro mods
  induction mods with
  | nil =>
    simp [runModems, OutcomePerm]
  | cons m rest ih =>
    cases ht : c.getNetworkTime m with
    | error e => simp [runModems, ht, OutcomePerm]
    | ok t =>
      cases hsg : c.getSignal m with
      | error e => simp [runModems, ht, hsg, OutcomePerm]
      | ok sg =>
        have hem := emitModem_perm m t sg hperm
        cases h1 : emitModem names₁ m t sg with
        | none =>
          cases h2 : emitModem names₂ m t sg with
          | none => simp [runModems, ht, hsg, h1, h2, OutcomePerm]
          | some o2 =>
            rw [h1, h2] at hem
            exact hem.elim
        | some o1 =>
          cases h2 : emitModem names₂ m t sg with
          | none =>
            rw [h1, h2] at hem
            exact hem.elim
          | some o2 =>
            rw [h1, h2] at hem
            have hp : o1.Perm o2 := hem
            cases hr1 : runModems c names₁ rest with
            | ok acc1 =>
              cases hr2 : runModems c names₂ rest with
              | ok acc2 =>
                rw [hr1, hr2] at ih
                have hacc : acc1.Perm acc2 := ih
                simp only [runModems, ht, hsg, h1, h2, hr1, hr2]
                exact hp.append hacc
              | scrapeError a b =>
                rw [hr1, hr2] at ih
                exact ih.elim
              | panicked msg =>
                rw [hr1, hr2] at ih
                exact ih.elim
            | scrapeError a b =>
              cases hr2 : runModems c names₂ rest with
              | ok acc2 =>
                rw [hr1, hr2] at ih
                exact ih.elim
              | scrapeError a' b' =>
                rw [hr1, hr2] at ih
                simp only [runModems, ht, hsg, h1, h2, hr1, hr2]
                exact ih
              | panicked msg =>
                rw [hr1, hr2] at ih
                exact ih.elim
            | panicked msg =>
              cases hr2 : runModems c names₂ rest with
              | ok acc2 =>
                rw [hr1, hr2] at ih
                exact ih.elim
              | scrapeError a b =>
                rw [hr1, hr2] at ih
                exact ih.elim
              | panicked msg2 =>
                simp only [runModems, ht, hsg, h1, h2, hr1, hr2]
                exact trivial

/-- C9: the scrape's observable outcome depends only on the device
snapshots and fetched auxiliary data — for any two iteration orders of
the sink's metric-name map (Go map order is an arbitrary permutation of
the keys), the outcomes agree: identical errors, and on success the
same multiset of samples (same metric names, label tuples and values). -/
theorem scrape_depends_only_on_data (c : Client) (names₁ names₂ : List String)
    (hperm : names₁.Perm names₂) :
    OutcomePerm (onScrape c names₁) (onScrape c names₂) := by
  have h := runModems_perm c hperm c.modems
  cases h1 : runModems c names₁ c.modems with
  | ok xs =>
    cases h2 : runModems c names₂ c.modems with
    | ok ys =>
      rw [h1, h2] at h
      have hxy : xs.Perm ys := h
      by_cases hmm : mmInfo ∈ names₁
      · have hmm2 : mmInfo ∈ names₂ := hperm.mem_iff.mp hmm
        simp only [onScrape, h1, h2, if_pos hmm, if_pos hmm2]
        exact hxy.append_right _
      · have hmm2 : mmInfo ∉ names₂ := fun hc => hmm (hperm.mem_iff.mpr hc)
        simp only [onScrape, h1, h2, if_neg hmm, if_neg hmm2]
        exact trivial
    | scrapeError a b =>
      rw [h1, h2] at h
      exact h.elim
    | panicked msg =>
      rw [h1, h2] at h
      exact h.elim
  | scrapeError a b =>
    cases h2 : runModems c names₂ c.modems with
    | ok ys =>
      rw [h1, h2] at h
      exact h.elim
    | scrapeError a' b' =>
      rw [h1, h2] at h
      simp only [onScrape, h1, h2]
      exact h
    | panicked msg =>
      rw [h1, h2] at h
      exact h.elim
  | panicked msg =>
    cases h2 : runModems c names₂ c.modems with
    | ok ys =>
      rw [h1, h2] at h
      exact h.elim
    | scrapeError a b =>
      rw [h1, h2] at h
      exact h.elim
    | panicked msg' =>
      simp only [onScrape, h1, h2]
      exact trivial

theorem scrape_depends_only_on_data_witness :
    OutcomePerm (onScrape fooClient declaredMetricNames)
      (onScrape fooClient declaredMetricNames.reverse) :=
  scrape_depends_only_on_data fooClient declaredMetricNames
    declaredMetricNames.reverse (List.reverse_perm declaredMetricNames).symm

end MMX
